import Mathlib

/-!
Shallow embedding of src/src/watchers.rs (inotify-based file/directory
watcher).  The inotify collaborator is modelled as an oracle
`addW : RStr → Option Nat` standing for `Inotify::add_watch` (`none` is an
I/O error, `some wd` a fresh watch descriptor), and the blocking read loop
is driven by an explicit list of batches, each batch being `none` (read
failure) or `some events`.  OS strings (paths and event names) may fail
UTF-8 conversion (`to_str` in the Rust source), so they are modelled by
`RStr`, either a valid UTF-8 `String` or an opaque non-UTF-8 value.
-/

namespace Watchers

/-- An OS string: valid UTF-8, or not (the `id` only distinguishes
distinct non-UTF-8 strings). Models `&OsStr` / `&Path` in the source. -/
inductive RStr where
  | utf8 (s : String)
  | nonUtf8 (id : Nat)
deriving DecidableEq, Repr

/-- Models `OsStr::to_str` / `Path::to_str`. -/
def RStr.toStr : RStr → Option String
  | .utf8 s => some s
  | .nonUtf8 _ => none

/-- Models `inotify::WatchMask` restricted to the bits the source uses. -/
structure WatchMask where
  create : Bool
  modify : Bool
  delete : Bool
deriving DecidableEq, Repr

/-- The mask built in `dir_watcher`: `MODIFY | CREATE | DELETE`. -/
def dirWatchMask : WatchMask := { create := true, modify := true, delete := true }

/-- The mask built in `file_watcher`: `MODIFY | DELETE`. -/
def fileWatchMask : WatchMask := { create := false, modify := true, delete := true }

/-- Models `inotify::EventMask` restricted to the bits the source tests:
`CREATE`, `DELETE`, `MODIFY` and `ISDIR`.  An event whose mask has none of
the first three bits (e.g. `IGNORED`) is represented by all-false flags. -/
structure EventMask where
  create : Bool
  delete : Bool
  modify : Bool
  isdir : Bool
deriving DecidableEq, Repr

/-- Models one `inotify::Event`: originating watch descriptor, mask, and
optional name (the child component, itself possibly non-UTF-8). -/
structure Event where
  wd : Nat
  mask : EventMask
  name : Option RStr
deriving DecidableEq, Repr

/-- Models `enum WatcherType`. -/
inductive WatcherType where
  | FILE
  | DIRECTORY
deriving DecidableEq, Repr

/-- Models `enum Traversal`. -/
inductive Traversal where
  | RECURSIVE
  | HEURISTIC
deriving DecidableEq, Repr

/-- The messages emitted through the `watcher_info!` macro, one constructor
per distinct format string in the source, carrying the interpolated data. -/
inductive LogMsg where
  | dirCreated (name : Option RStr)
  | fileCreated (name : Option RStr)
  | dirDeleted (name : Option RStr)
  | fileDeleted (name : Option RStr)
  | dirModified (name : Option RStr)
  | fileModified (name : Option RStr)
  | watchingNewDir (path : String)
  | fileModifiedMsg
  | unexpectedEvent (name : Option RStr)
deriving DecidableEq, Repr

/-- The `paths` field: `HashMap<WatchDescriptor, String>` as an association
list with unique keys maintained by `registryInsert`. -/
abbrev Registry := List (Nat × String)

/-- Models `HashMap::insert` (replaces any entry with the same key). -/
def registryInsert (m : Registry) (k : Nat) (v : String) : Registry :=
  (k, v) :: m.filter (fun p => p.1 != k)

/-- Models `HashMap::get`. -/
def registryGet (m : Registry) (k : Nat) : Option String :=
  (m.find? (fun p => p.1 == k)).map (fun p => p.2)

/-- Models `struct Watcher`.  The live inotify connection is not a value
here (registration goes through the `addW` oracle); the optional
`slog::Logger` is modelled by its presence. -/
structure Watcher where
  watcher_type : WatcherType
  watch_mask : WatchMask
  logger : Bool
  paths : Option Registry
deriving DecidableEq, Repr

/-- Models the `watcher_info!` macro: emit one message when a logger is
attached, nothing otherwise. -/
def watcher_info (w : Watcher) (m : LogMsg) : List LogMsg :=
  if w.logger then [m] else []

/-- Models `Watcher::register_logger`. -/
def register_logger (w : Watcher) : Watcher := { w with logger := true }

/-- A successful `add_watch` call observed during construction or the event
loop: the returned descriptor, the path registered, and the mask used. -/
structure Registration where
  wd : Nat
  path : RStr
  mask : WatchMask
deriving DecidableEq, Repr

/-- Result alternative of `watch()`: `Ok(bool)` or an `io::Error`. -/
inductive WatchRet where
  | ok (b : Bool)
  | ioError
deriving DecidableEq, Repr

/-- Observable outcome of one `watch()` call: the watcher state afterwards
(`self` persists across the call), the messages logged, the successful
watch registrations performed, and the returned value. -/
structure StepOut where
  st : Watcher
  logs : List LogMsg
  regs : List Registration
  ret : WatchRet
deriving DecidableEq, Repr

/-- Models `str::starts_with` applied to the one pattern the source uses,
the literal "." (hidden-file marker): true exactly when the first character
is a dot.  (Lean's own String.startsWith does not reduce in the kernel.) -/
def startsWithDot (s : String) : Bool :=
  match s.data with
  | [] => false
  | c :: _ => c == '.'

/-- Models `fn is_hidden` (`file_name().to_str().map(starts_with ".").unwrap_or(false)`). -/
def is_hidden (name : RStr) : Bool :=
  match name.toStr with
  | some s => startsWithDot s
  | none => false

/-- The body of the `for event in events` loop of `dir_event_loop`, applied
to the single event it processes before `return Ok(true)`.  Mirrors the
if-else chain of the source line by line. -/
def processDirEvent (w : Watcher) (addW : RStr → Option Nat) (e : Event) : StepOut :=
  if e.mask.create then
    if e.mask.isdir then
      let l1 := watcher_info w (.dirCreated e.name)
      match w.paths, e.name with
      | some paths, some name =>
        match name.toStr with
        | some n =>
          if !(startsWithDot n) then
            match registryGet paths e.wd with
            | some path =>
              let new_path := path ++ "/" ++ n
              let l2 := watcher_info w (.watchingNewDir new_path)
              match addW (.utf8 new_path) with
              | some wd =>
                { st := { w with paths := some (registryInsert paths wd new_path) },
                  logs := l1 ++ l2,
                  regs := [{ wd := wd, path := .utf8 new_path, mask := w.watch_mask }],
                  ret := .ok true }
              | none =>
                { st := w, logs := l1 ++ l2, regs := [], ret := .ioError }
            | none => { st := w, logs := l1, regs := [], ret := .ok true }
          else { st := w, logs := l1, regs := [], ret := .ok true }
        | none => { st := w, logs := l1, regs := [], ret := .ok true }
      | _, _ => { st := w, logs := l1, regs := [], ret := .ok true }
    else
      { st := w, logs := watcher_info w (.fileCreated e.name), regs := [], ret := .ok true }
  else if e.mask.delete then
    { st := w,
      logs := watcher_info w (if e.mask.isdir then .dirDeleted e.name else .fileDeleted e.name),
      regs := [], ret := .ok true }
  else if e.mask.modify then
    { st := w,
      logs := watcher_info w (if e.mask.isdir then .dirModified e.name else .fileModified e.name),
      regs := [], ret := .ok true }
  else
    { st := w, logs := [], regs := [], ret := .ok true }

/-- The body of the `for event in events` loop of `file_event_loop` for the
single event processed before `return Ok(true)`. -/
def processFileEvent (w : Watcher) (e : Event) : StepOut :=
  if e.mask.modify then
    { st := w, logs := watcher_info w .fileModifiedMsg, regs := [], ret := .ok true }
  else
    { st := w, logs := watcher_info w (.unexpectedEvent e.name), regs := [], ret := .ok true }

/-- One batch delivered by `read_events_blocking`: `none` is a read
failure, `some es` a (possibly empty) batch of events. -/
abbrev Batch := Option (List Event)

/-- Models `Watcher::dir_event_loop` driven by an explicit list of batches:
loop over batches, propagate a read error, re-block on an empty batch, and
process only the first event of the first non-empty batch.  Returns `none`
when the batch list is exhausted while the loop is still blocked. -/
def dir_event_loop (w : Watcher) (addW : RStr → Option Nat) : List Batch → Option StepOut
  | [] => none
  | none :: _ => some { st := w, logs := [], regs := [], ret := .ioError }
  | some [] :: rest => dir_event_loop w addW rest
  | some (e :: _) :: _ => some (processDirEvent w addW e)

/-- Models `Watcher::file_event_loop`, same loop skeleton as
`dir_event_loop`. -/
def file_event_loop (w : Watcher) : List Batch → Option StepOut
  | [] => none
  | none :: _ => some { st := w, logs := [], regs := [], ret := .ioError }
  | some [] :: rest => file_event_loop w rest
  | some (e :: _) :: _ => some (processFileEvent w e)

/-- Models `Watcher::watch`: dispatch on the watcher type. -/
def watch (w : Watcher) (addW : RStr → Option Nat) (batches : List Batch) : Option StepOut :=
  match w.watcher_type with
  | .FILE => file_event_loop w batches
  | .DIRECTORY => dir_event_loop w addW batches

/-- Models `Watcher::file_watcher`: register `MODIFY | DELETE` on the file;
failure of `Inotify::init` or `add_watch` aborts construction. -/
def file_watcher (file : String) (addW : RStr → Option Nat) :
    Option (Watcher × List Registration) :=
  match addW (.utf8 file) with
  | none => none
  | some h =>
    some ({ watcher_type := .FILE, watch_mask := fileWatchMask, logger := false, paths := none },
      [{ wd := h, path := .utf8 file, mask := fileWatchMask }])

/-- The `Traversal::RECURSIVE` arm of `dir_watcher`: fold over the entries
yielded by the (already hidden-and-non-directory filtered) `WalkDir`
iterator.  `none` in the walk list models a failed `DirEntry` (`entry?`),
which aborts construction, as does a failed `add_watch`; the
`path.to_str()` check drops non-UTF-8 paths from the registry while the
watch stays registered. -/
def buildRecursive (addW : RStr → Option Nat) :
    List (Option RStr) → Registry → List Registration → Option (Registry × List Registration)
  | [], acc, regs => some (acc, regs)
  | none :: _, _, _ => none
  | some p :: rest, acc, regs =>
    match addW p with
    | none => none
    | some wd =>
      let acc2 := match p.toStr with
        | some s => registryInsert acc wd s
        | none => acc
      buildRecursive addW rest acc2 (regs ++ [{ wd := wd, path := p, mask := dirWatchMask }])

/-- Models `Watcher::dir_watcher`.  `walk` is the entry sequence produced
by `WalkDir::new(path).follow_links(true)` filtered by
`!is_hidden(e) && e.file_type().is_dir()` (recursive arm only);
`root` is the `path` argument (heuristic arm registers it alone). -/
def dir_watcher (walk : List (Option RStr)) (root : String) (trav : Traversal)
    (addW : RStr → Option Nat) : Option (Watcher × List Registration) :=
  match trav with
  | .RECURSIVE =>
    match buildRecursive addW walk [] [] with
    | none => none
    | some (paths, regs) =>
      some ({ watcher_type := .DIRECTORY, watch_mask := dirWatchMask, logger := false,
              paths := some paths }, regs)
  | .HEURISTIC =>
    match addW (.utf8 root) with
    | none => none
    | some h =>
      some ({ watcher_type := .DIRECTORY, watch_mask := dirWatchMask, logger := false,
              paths := none },
        [{ wd := h, path := .utf8 root, mask := dirWatchMask }])

/-- An event mask matches one of the three classifications of the
directory event loop. -/
def classifiedB (m : EventMask) : Bool := m.create || m.delete || m.modify

/-- The conditions under which the directory event loop reaches the
dynamic-registration attempt (the "Watching new directory" log and the
`add_watch` call): directory creation, registry present, name present,
UTF-8, not hidden, and the handle resolvable in the registry. -/
def extendAttempt (w : Watcher) (e : Event) : Bool :=
  e.mask.create && e.mask.isdir &&
    (match w.paths, e.name with
     | some paths, some name =>
       match name.toStr with
       | some n => !(startsWithDot n) && (registryGet paths e.wd).isSome
       | none => false
     | _, _ => false)

/-- A registration is covered by the registry: exactly one entry has its
handle and its (UTF-8) path. -/
def regCovered (paths : Registry) (r : Registration) : Prop :=
  (paths.filter (fun p => p.1 == r.wd && some p.2 == r.path.toStr)).length = 1

end Watchers

namespace Watchers

/-- C1: for a Directory-kind Watcher with a registry (Recursive strategy),
a create event marked as a directory, with a non-hidden UTF-8 name and a
handle resolvable in the registry, makes watch() register exactly one new
watch on parent ++ "/" ++ name with the shared mask, insert the new
handle-to-path pair into the registry, and log "directory created". -/
theorem dir_create_registers_child (w : Watcher) (addW : RStr → Option Nat) (e : Event)
    (t : List Event) (r : List Batch) (ps : Registry) (n parent : String) (h : Nat)
    (hty : w.watcher_type = .DIRECTORY)
    (hps : w.paths = some ps) (hlog : w.logger = true)
    (hc : e.mask.create = true) (hd : e.mask.isdir = true)
    (hn : e.name = some (.utf8 n)) (hhid : startsWithDot n = false)
    (hget : registryGet ps e.wd = some parent)
    (haw : addW (.utf8 (parent ++ "/" ++ n)) = some h) :
    watch w addW (some (e :: t) :: r) =
      some { st := { w with paths := some (registryInsert ps h (parent ++ "/" ++ n)) },
             logs := [.dirCreated (some (.utf8 n)), .watchingNewDir (parent ++ "/" ++ n)],
             regs := [{ wd := h, path := .utf8 (parent ++ "/" ++ n), mask := w.watch_mask }],
             ret := .ok true } := by
  simp [watch, hty, dir_event_loop, processDirEvent, hc, hd, hps, hn, RStr.toStr, hhid,
    hget, haw, watcher_info, hlog]

/-- C1 witness: a concrete recursive watcher with registry entry (3, "root")
receiving a create event for subdirectory "sub" under handle 3. -/
theorem dir_create_registers_child_witness :
    watch { watcher_type := .DIRECTORY, watch_mask := dirWatchMask, logger := true,
            paths := some [(3, "root")] }
      (fun _ => some 9)
      [some [{ wd := 3,
               mask := { create := true, delete := false, modify := false, isdir := true },
               name := some (.utf8 "sub") }]] =
      some { st := { watcher_type := .DIRECTORY, watch_mask := dirWatchMask, logger := true,
                     paths := some (registryInsert [(3, "root")] 9 ("root" ++ "/" ++ "sub")) },
             logs := [.dirCreated (some (.utf8 "sub")),
                      .watchingNewDir ("root" ++ "/" ++ "sub")],
             regs := [{ wd := 9, path := .utf8 ("root" ++ "/" ++ "sub"),
                        mask := dirWatchMask }],
             ret := .ok true } :=
  dir_create_registers_child _ _ _ _ _ _ "sub" "root" 9 rfl rfl rfl rfl rfl rfl
    (by decide) rfl rfl

/-- C5: when the dynamic registration of a newly created subdirectory is
rejected by the Event Source (add_watch fails), watch() returns the I/O
error and the watcher state — in particular its registry — is unchanged. -/
theorem dir_create_register_failure (w : Watcher) (addW : RStr → Option Nat) (e : Event)
    (t : List Event) (r : List Batch) (ps : Registry) (n parent : String)
    (hty : w.watcher_type = .DIRECTORY)
    (hps : w.paths = some ps) (hlog : w.logger = true)
    (hc : e.mask.create = true) (hd : e.mask.isdir = true)
    (hn : e.name = some (.utf8 n)) (hhid : startsWithDot n = false)
    (hget : registryGet ps e.wd = some parent)
    (haw : addW (.utf8 (parent ++ "/" ++ n)) = none) :
    watch w addW (some (e :: t) :: r) =
      some { st := w,
             logs := [.dirCreated (some (.utf8 n)), .watchingNewDir (parent ++ "/" ++ n)],
             regs := [],
             ret := .ioError } := by
  simp [watch, hty, dir_event_loop, processDirEvent, hc, hd, hps, hn, RStr.toStr, hhid,
    hget, haw, watcher_info, hlog]

/-- C5 witness: the concrete registration rejection leaves the registry
entry list [(3, "root")] untouched and returns the I/O error. -/
theorem dir_create_register_failure_witness :
    watch { watcher_type := .DIRECTORY, watch_mask := dirWatchMask, logger := true,
            paths := some [(3, "root")] }
      (fun _ => none)
      [some [{ wd := 3,
               mask := { create := true, delete := false, modify := false, isdir := true },
               name := some (.utf8 "sub") }]] =
      some { st := { watcher_type := .DIRECTORY, watch_mask := dirWatchMask, logger := true,
                     paths := some [(3, "root")] },
             logs := [.dirCreated (some (.utf8 "sub")),
                      .watchingNewDir ("root" ++ "/" ++ "sub")],
             regs := [],
             ret := .ioError } :=
  dir_create_register_failure _ _ _ _ _ _ "sub" "root" rfl rfl rfl rfl rfl rfl
    (by decide) rfl rfl

/-- C7: a directory-creation event whose name begins with "." logs
"directory created" but registers no watch, leaves the registry unchanged,
and watch() returns true. -/
theorem dir_create_hidden_skipped (w : Watcher) (addW : RStr → Option Nat) (e : Event)
    (t : List Event) (r : List Batch) (ps : Registry) (n : String)
    (hty : w.watcher_type = .DIRECTORY)
    (hps : w.paths = some ps) (hlog : w.logger = true)
    (hc : e.mask.create = true) (hd : e.mask.isdir = true)
    (hn : e.name = some (.utf8 n)) (hhid : startsWithDot n = true) :
    watch w addW (some (e :: t) :: r) =
      some { st := w,
             logs := [.dirCreated (some (.utf8 n))],
             regs := [],
             ret := .ok true } := by
  simp [watch, hty, dir_event_loop, processDirEvent, hc, hd, hps, hn, RStr.toStr, hhid,
    watcher_info, hlog]

/-- C7 witness: creating hidden directory ".git" logs but does not extend
the registry of a concrete recursive watcher. -/
theorem dir_create_hidden_skipped_witness :
    watch { watcher_type := .DIRECTORY, watch_mask := dirWatchMask, logger := true,
            paths := some [(3, "root")] }
      (fun _ => some 9)
      [some [{ wd := 3,
               mask := { create := true, delete := false, modify := false, isdir := true },
               name := some (.utf8 ".git") }]] =
      some { st := { watcher_type := .DIRECTORY, watch_mask := dirWatchMask, logger := true,
                     paths := some [(3, "root")] },
             logs := [.dirCreated (some (.utf8 ".git"))],
             regs := [],
             ret := .ok true } :=
  dir_create_hidden_skipped _ _ _ _ _ _ ".git" rfl rfl rfl rfl rfl rfl (by decide)

/-- C10: a non-hidden directory-creation event whose handle is unknown to
the registry, or whose name is absent or not valid UTF-8, is still logged
as "directory created" but registers nothing, changes no state, raises no
error, and watch() returns true. -/
theorem dir_create_unresolvable_ignored (w : Watcher) (addW : RStr → Option Nat) (e : Event)
    (t : List Event) (r : List Batch) (ps : Registry)
    (hty : w.watcher_type = .DIRECTORY)
    (hps : w.paths = some ps) (hlog : w.logger = true)
    (hc : e.mask.create = true) (hd : e.mask.isdir = true)
    (hcase : e.name = none ∨ (∃ k, e.name = some (.nonUtf8 k)) ∨
      (∃ n, e.name = some (.utf8 n) ∧ startsWithDot n = false ∧
        registryGet ps e.wd = none)) :
    watch w addW (some (e :: t) :: r) =
      some { st := w,
             logs := [.dirCreated e.name],
             regs := [],
             ret := .ok true } := by
  rcases hcase with hn | ⟨k, hn⟩ | ⟨n, hn, hhid, hget⟩ <;>
    simp [watch, hty, dir_event_loop, processDirEvent, hc, hd, hps, hn, RStr.toStr,
      watcher_info, hlog]
  simp [hhid, hget]

/-- C10 witness: an event from unknown handle 42 with a valid non-hidden
name is logged and otherwise ignored. -/
theorem dir_create_unresolvable_ignored_witness :
    watch { watcher_type := .DIRECTORY, watch_mask := dirWatchMask, logger := true,
            paths := some [(3, "root")] }
      (fun _ => some 9)
      [some [{ wd := 42,
               mask := { create := true, delete := false, modify := false, isdir := true },
               name := some (.utf8 "sub") }]] =
      some { st := { watcher_type := .DIRECTORY, watch_mask := dirWatchMask, logger := true,
                     paths := some [(3, "root")] },
             logs := [.dirCreated (some (.utf8 "sub"))],
             regs := [],
             ret := .ok true } :=
  dir_create_unresolvable_ignored _ _ _ _ _ _ rfl rfl rfl rfl rfl
    (Or.inr (Or.inr ⟨"sub", rfl, by decide, rfl⟩))

end Watchers

namespace Watchers

/-- Helper: the directory event-loop body only ever returns Ok(true) or an
I/O error, never Ok(false). -/
theorem processDirEvent_ret_true (w : Watcher) (addW : RStr → Option Nat) (e : Event)
    (b : Bool) (h : (processDirEvent w addW e).ret = .ok b) : b = true := by
  unfold processDirEvent at h
  repeat' split at h
  all_goals try simp_all
  all_goals (split at h <;> simp_all)

/-- Helper: the file event-loop body always returns Ok(true). -/
theorem processFileEvent_ret_true (w : Watcher) (e : Event) (b : Bool)
    (h : (processFileEvent w e).ret = .ok b) : b = true := by
  unfold processFileEvent at h
  repeat' split at h
  all_goals simp_all

/-- Helper: a successful dir_event_loop return carries Ok(true). -/
theorem dir_event_loop_ret_true (w : Watcher) (addW : RStr → Option Nat) :
    ∀ (batches : List Batch) (out : StepOut) (b : Bool),
      dir_event_loop w addW batches = some out → out.ret = .ok b → b = true := by
  intro batches
  induction batches with
  | nil => intro out b h; simp [dir_event_loop] at h
  | cons hd rest ih =>
    intro out b h hb
    match hd with
    | none =>
      simp [dir_event_loop] at h
      rw [← h] at hb
      simp at hb
    | some [] =>
      simp [dir_event_loop] at h
      exact ih out b h hb
    | some (e :: t) =>
      simp [dir_event_loop] at h
      rw [← h] at hb
      exact processDirEvent_ret_true w addW e b hb

/-- Helper: a successful file_event_loop return carries Ok(true). -/
theorem file_event_loop_ret_true (w : Watcher) :
    ∀ (batches : List Batch) (out : StepOut) (b : Bool),
      file_event_loop w batches = some out → out.ret = .ok b → b = true := by
  intro batches
  induction batches with
  | nil => intro out b h; simp [file_event_loop] at h
  | cons hd rest ih =>
    intro out b h hb
    match hd with
    | none =>
      simp [file_event_loop] at h
      rw [← h] at hb
      simp at hb
    | some [] =>
      simp [file_event_loop] at h
      exact ih out b h hb
    | some (e :: t) =>
      simp [file_event_loop] at h
      rw [← h] at hb
      exact processFileEvent_ret_true w e b hb

/-- C3: for every Watcher, an empty batch makes watch() block again for the
next batch; only the first event of a non-empty batch determines the
outcome (the tail of the batch and all later batches are dropped); and a
successful return always carries the boolean true. -/
theorem watch_one_shot :
    (∀ (w : Watcher) (addW : RStr → Option Nat) (rest : List Batch),
      watch w addW (some [] :: rest) = watch w addW rest) ∧
    (∀ (w : Watcher) (addW : RStr → Option Nat) (e : Event) (t t2 : List Event)
        (r r2 : List Batch),
      watch w addW (some (e :: t) :: r) = watch w addW (some (e :: t2) :: r2)) ∧
    (∀ (w : Watcher) (addW : RStr → Option Nat) (batches : List Batch) (out : StepOut)
        (b : Bool),
      watch w addW batches = some out → out.ret = .ok b → b = true) := by
  refine ⟨?_, ?_, ?_⟩
  · intro w addW rest
    cases h : w.watcher_type <;> simp [watch, h, dir_event_loop, file_event_loop]
  · intro w addW e t t2 r r2
    cases h : w.watcher_type <;> simp [watch, h, dir_event_loop, file_event_loop]
  · intro w addW batches out b h hb
    cases hty : w.watcher_type
    · rw [watch, hty] at h
      exact file_event_loop_ret_true w batches out b h hb
    · rw [watch, hty] at h
      exact dir_event_loop_ret_true w addW batches out b h hb

/-- C3 witness: a concrete file watcher, after one empty batch, handles the
first of two events of the next batch and returns true. -/
theorem watch_one_shot_witness :
    watch { watcher_type := .FILE, watch_mask := fileWatchMask, logger := true,
            paths := none }
      (fun _ => none)
      [some [], some
        [{ wd := 0,
           mask := { create := false, delete := false, modify := true, isdir := false },
           name := none },
         { wd := 0,
           mask := { create := false, delete := true, modify := false, isdir := false },
           name := none }]] =
      some { st := { watcher_type := .FILE, watch_mask := fileWatchMask, logger := true,
                     paths := none },
             logs := [.fileModifiedMsg], regs := [], ret := .ok true }
    ∧ true = true := by
  constructor
  · rfl
  · exact watch_one_shot.2.2
      { watcher_type := .FILE, watch_mask := fileWatchMask, logger := true, paths := none }
      (fun _ => none)
      [some [], some
        [{ wd := 0,
           mask := { create := false, delete := false, modify := true, isdir := false },
           name := none },
         { wd := 0,
           mask := { create := false, delete := true, modify := false, isdir := false },
           name := none }]]
      { st := { watcher_type := .FILE, watch_mask := fileWatchMask, logger := true,
                paths := none },
        logs := [.fileModifiedMsg], regs := [], ret := .ok true }
      true rfl rfl

end Watchers

namespace Watchers

/-- C4 counterexample: an event whose mask contains none of create, delete
or modify (e.g. an IGNORED notification) still makes the directory event
loop return Ok(true), with nothing dispatched or logged — refuting the
claim that only classified events cause a successful return. -/
theorem dir_unclassified_returns_true :
    dir_event_loop
      { watcher_type := .DIRECTORY, watch_mask := dirWatchMask, logger := true,
        paths := some [] }
      (fun _ => none)
      [some [{ wd := 0,
               mask := { create := false, delete := false, modify := false, isdir := false },
               name := none }]] =
      some { st := { watcher_type := .DIRECTORY, watch_mask := dirWatchMask, logger := true,
                     paths := some [] },
             logs := [], regs := [], ret := .ok true } ∧
    classifiedB { create := false, delete := false, modify := false, isdir := false } =
      false :=
  ⟨rfl, rfl⟩

/-- C4 amended: a Directory-kind watch() returns successfully after
processing the first event of a batch even when that event matches none of
the create/delete/modify classifications; such an event is not dispatched
(no log, no registration, no state change) but still yields Ok(true). -/
theorem dir_first_event_returns (w : Watcher) (addW : RStr → Option Nat) (e : Event)
    (t : List Event) (r : List Batch)
    (hty : w.watcher_type = .DIRECTORY)
    (h : classifiedB e.mask = false) :
    watch w addW (some (e :: t) :: r) =
      some { st := w, logs := [], regs := [], ret := .ok true } := by
  simp only [classifiedB, Bool.or_eq_false_iff] at h
  simp [watch, hty, dir_event_loop, processDirEvent, h.1.1, h.1.2, h.2]

/-- C4 amended witness: the concrete unclassified event of the
counterexample, via the general theorem. -/
theorem dir_first_event_returns_witness :
    watch
      { watcher_type := .DIRECTORY, watch_mask := dirWatchMask, logger := true,
        paths := some [] }
      (fun _ => none)
      [some [{ wd := 0,
               mask := { create := false, delete := false, modify := false, isdir := false },
               name := none }], none] =
      some { st := { watcher_type := .DIRECTORY, watch_mask := dirWatchMask, logger := true,
                     paths := some [] },
             logs := [], regs := [], ret := .ok true } :=
  dir_first_event_returns _ _ _ _ _ rfl rfl

/-- C8: the directory event loop classifies each event by its mask bits in
the priority order create, delete, modify (the first message logged is the
matching one), and independently the directory-versus-file distinction
follows the ISDIR flag of the mask. -/
theorem dir_event_classification (w : Watcher) (addW : RStr → Option Nat) (e : Event)
    (hlog : w.logger = true) :
    (processDirEvent w addW e).logs.head? =
      (if e.mask.create then
        some (if e.mask.isdir then LogMsg.dirCreated e.name else LogMsg.fileCreated e.name)
      else if e.mask.delete then
        some (if e.mask.isdir then LogMsg.dirDeleted e.name else LogMsg.fileDeleted e.name)
      else if e.mask.modify then
        some (if e.mask.isdir then LogMsg.dirModified e.name else LogMsg.fileModified e.name)
      else none) := by
  unfold processDirEvent
  repeat' split
  all_goals try simp_all [watcher_info]
  all_goals (split <;> simp_all [watcher_info])

/-- C8 witness: an event flagged both delete and modify on a file is
classified as a file deletion (delete takes priority over modify). -/
theorem dir_event_classification_witness :
    (processDirEvent
      { watcher_type := .DIRECTORY, watch_mask := dirWatchMask, logger := true,
        paths := some [] }
      (fun _ => none)
      { wd := 1,
        mask := { create := false, delete := true, modify := true, isdir := false },
        name := some (.utf8 "f.txt") }).logs.head? =
      some (LogMsg.fileDeleted (some (.utf8 "f.txt"))) :=
  dir_event_classification _ _ _ rfl

/-- C9 counterexample: with a logger attached, the directory-creation case
that extends the registry emits two messages ("directory created" and
"watching new directory"), not exactly one per classified event. -/
theorem dir_create_two_messages :
    (processDirEvent
      { watcher_type := .DIRECTORY, watch_mask := dirWatchMask, logger := true,
        paths := some [(5, "root")] }
      (fun _ => some 7)
      { wd := 5,
        mask := { create := true, delete := false, modify := false, isdir := true },
        name := some (.utf8 "sub") }).logs =
      [LogMsg.dirCreated (some (.utf8 "sub")), LogMsg.watchingNewDir ("root" ++ "/" ++ "sub")]
    ∧ (processDirEvent
      { watcher_type := .DIRECTORY, watch_mask := dirWatchMask, logger := true,
        paths := some [(5, "root")] }
      (fun _ => some 7)
      { wd := 5,
        mask := { create := true, delete := false, modify := false, isdir := true },
        name := some (.utf8 "sub") }).logs.length ≠ 1 :=
  ⟨rfl, by decide⟩

/-- C9 amended: with no logger attached no message is emitted for any
event; with a logger attached, each event emits exactly one message per
classification, except the directory-creation case that reaches the
dynamic-registration attempt, which emits two; unclassified events emit
none. -/
theorem dir_event_log_count (w : Watcher) (addW : RStr → Option Nat) (e : Event) :
    (processDirEvent w addW e).logs.length =
      (if w.logger then
        (if extendAttempt w e then 2 else if classifiedB e.mask then 1 else 0)
      else 0) := by
  unfold processDirEvent extendAttempt classifiedB
  repeat' split
  all_goals cases hl : w.logger
  all_goals try simp_all [watcher_info]
  all_goals (split <;> simp_all [watcher_info])

end Watchers

namespace Watchers

/-- Helper: the file event-loop body never registers a watch and never
mutates the watcher. -/
theorem processFileEvent_noreg (w : Watcher) (e : Event) :
    (processFileEvent w e).regs = [] ∧ (processFileEvent w e).st = w := by
  unfold processFileEvent
  split <;> simp

/-- Helper: without a registry (paths = None) the directory event-loop body
never registers a watch and never mutates the watcher. -/
theorem processDirEvent_noreg (w : Watcher) (addW : RStr → Option Nat) (e : Event)
    (hp : w.paths = none) :
    (processDirEvent w addW e).regs = [] ∧ (processDirEvent w addW e).st = w := by
  unfold processDirEvent
  repeat' split
  all_goals simp_all

/-- Helper: without a registry, a whole dir_event_loop call registers
nothing and leaves the watcher unchanged. -/
theorem dir_event_loop_noreg (w : Watcher) (addW : RStr → Option Nat)
    (hp : w.paths = none) :
    ∀ (batches : List Batch) (out : StepOut),
      dir_event_loop w addW batches = some out → out.regs = [] ∧ out.st = w := by
  intro batches
  induction batches with
  | nil => intro out h; simp [dir_event_loop] at h
  | cons hd rest ih =>
    intro out h
    match hd with
    | none =>
      simp [dir_event_loop] at h
      rw [← h]
      exact ⟨rfl, rfl⟩
    | some [] =>
      simp [dir_event_loop] at h
      exact ih out h
    | some (e :: t) =>
      simp [dir_event_loop] at h
      rw [← h]
      exact processDirEvent_noreg w addW e hp

/-- Helper: a whole file_event_loop call registers nothing and leaves the
watcher unchanged. -/
theorem file_event_loop_noreg (w : Watcher) :
    ∀ (batches : List Batch) (out : StepOut),
      file_event_loop w batches = some out → out.regs = [] ∧ out.st = w := by
  intro batches
  induction batches with
  | nil => intro out h; simp [file_event_loop] at h
  | cons hd rest ih =>
    intro out h
    match hd with
    | none =>
      simp [file_event_loop] at h
      rw [← h]
      exact ⟨rfl, rfl⟩
    | some [] =>
      simp [file_event_loop] at h
      exact ih out h
    | some (e :: t) =>
      simp [file_event_loop] at h
      rw [← h]
      exact processFileEvent_noreg w e

/-- C6: a Heuristic-strategy directory watcher registers exactly one watch
(on the root, with the directory mask) at construction and has no registry;
and any watcher without a registry never registers another watch in any
watch() call, whatever events are delivered, and is left unchanged (hence
the same holds across any number of invocations). -/
theorem heuristic_single_watch :
    (∀ (walk : List (Option RStr)) (root : String) (addW : RStr → Option Nat) (h : Nat),
      addW (.utf8 root) = some h →
      dir_watcher walk root .HEURISTIC addW =
        some ({ watcher_type := .DIRECTORY, watch_mask := dirWatchMask, logger := false,
                paths := none },
          [{ wd := h, path := .utf8 root, mask := dirWatchMask }])) ∧
    (∀ (w : Watcher) (addW : RStr → Option Nat) (batches : List Batch) (out : StepOut),
      w.paths = none → watch w addW batches = some out →
        out.regs = [] ∧ out.st = w) := by
  constructor
  · intro walk root addW h haw
    simp [dir_watcher, haw]
  · intro w addW batches out hp h
    cases hty : w.watcher_type
    · rw [watch, hty] at h
      exact file_event_loop_noreg w batches out h
    · rw [watch, hty] at h
      exact dir_event_loop_noreg w addW hp batches out h

/-- C6 witness: a concrete heuristic watcher registers only the root at
construction, and a directory-creation event delivered to it registers
nothing and changes nothing. -/
theorem heuristic_single_watch_witness :
    dir_watcher [] "root" .HEURISTIC (fun _ => some 4) =
      some ({ watcher_type := .DIRECTORY, watch_mask := dirWatchMask, logger := false,
              paths := none },
        [{ wd := 4, path := .utf8 "root", mask := dirWatchMask }]) ∧
    ((watch { watcher_type := .DIRECTORY, watch_mask := dirWatchMask, logger := false,
              paths := none }
        (fun _ => some 4)
        [some [{ wd := 4,
                 mask := { create := true, delete := false, modify := false, isdir := true },
                 name := some (.utf8 "sub") }]]).get rfl).regs = [] := by
  constructor
  · exact heuristic_single_watch.1 [] "root" (fun _ => some 4) 4 rfl
  · have h := heuristic_single_watch.2
      { watcher_type := .DIRECTORY, watch_mask := dirWatchMask, logger := false,
        paths := none }
      (fun _ => some 4)
      [some [{ wd := 4,
               mask := { create := true, delete := false, modify := false, isdir := true },
               name := some (.utf8 "sub") }]]
      { st := { watcher_type := .DIRECTORY, watch_mask := dirWatchMask, logger := false,
                paths := none },
        logs := [], regs := [], ret := .ok true }
      rfl rfl
    exact h.1 ▸ rfl

end Watchers

namespace Watchers

/-- C2 counterexample: recursive construction over a single directory whose
path is not valid UTF-8 succeeds and registers a watch (handle 1), but the
registry stays empty — the registered watch has no handle-to-path entry,
because the source inserts into the map only when `path.to_str()` succeeds. -/
theorem recursive_nonutf8_uncovered :
    dir_watcher [some (RStr.nonUtf8 0)] "root" .RECURSIVE (fun _ => some 1) =
      some ({ watcher_type := .DIRECTORY, watch_mask := dirWatchMask, logger := false,
              paths := some [] },
        [{ wd := 1, path := RStr.nonUtf8 0, mask := dirWatchMask }]) ∧
    ¬ regCovered [] { wd := 1, path := RStr.nonUtf8 0, mask := dirWatchMask } :=
  ⟨rfl, by simp [regCovered]⟩

/-- Helper: a filter that only keeps key k is unaffected by first removing
the entries with a key different from some other key wd. -/
theorem filter_bne_keep (pc : Nat × String → Bool) (wd : Nat)
    (hpc : ∀ x, pc x = true → (x.1 == wd) = false) :
    ∀ l : Registry, (l.filter (fun q => q.1 != wd)).filter pc = l.filter pc := by
  intro l
  induction l with
  | nil => rfl
  | cons x xs ih =>
    by_cases hx : pc x = true
    · have hne : (x.1 != wd) = true := by
        simp only [bne]
        rw [hpc x hx]
        rfl
      simp [List.filter_cons, hne, hx, ih]
    · have hx2 : pc x = false := by simpa using hx
      cases hne : (x.1 != wd) <;> simp [List.filter_cons, hne, hx2, ih]

/-- Helper: a filter that requires key wd finds nothing among the entries
whose key differs from wd. -/
theorem filter_bne_drop (pc : Nat × String → Bool) (wd : Nat)
    (hpc : ∀ x, pc x = true → (x.1 == wd) = true) :
    ∀ l : Registry, (l.filter (fun q => q.1 != wd)).filter pc = [] := by
  intro l
  induction l with
  | nil => rfl
  | cons x xs ih =>
    by_cases hk : (x.1 == wd) = true
    · have hne : (x.1 != wd) = false := by
        simp only [bne]
        rw [hk]
        rfl
      simp [List.filter_cons, hne, ih]
    · have hne : (x.1 != wd) = true := by
        simp only [bne]
        rw [Bool.eq_false_iff.mpr hk]
        rfl
      have hx2 : pc x = false := by
        cases hpx : pc x
        · rfl
        · exact absurd (hpc x hpx) hk
      simp [List.filter_cons, hne, hx2, ih]

end Watchers

namespace Watchers

/-- Helper: after inserting (wd, s), exactly one entry matches key wd with
value s. -/
theorem cov_insert_self (acc : Registry) (wd : Nat) (s : String) :
    ((registryInsert acc wd s).filter
      (fun q => q.1 == wd && some q.2 == some s)).length = 1 := by
  unfold registryInsert
  rw [List.filter_cons]
  have hhead : ((wd == wd) && (some s == some s : Bool)) = true := by simp
  rw [if_pos (by simp)]
  have htail :
      ((acc.filter (fun q => q.1 != wd)).filter
        (fun q => q.1 == wd && some q.2 == some s)) = [] := by
    apply filter_bne_drop
    intro x hx
    exact (Bool.and_eq_true _ _ |>.mp hx).1
  rw [htail]
  rfl

/-- Helper: inserting under key wd does not change the entries matched
under a different key k. -/
theorem cov_insert_other (acc : Registry) (wd k : Nat) (s : String) (o : Option String)
    (hk : (k == wd) = false) :
    ((registryInsert acc wd s).filter (fun q => q.1 == k && some q.2 == o)).length =
      (acc.filter (fun q => q.1 == k && some q.2 == o)).length := by
  unfold registryInsert
  rw [List.filter_cons]
  have hkn : k ≠ wd := by
    intro hkk
    rw [hkk] at hk
    simp at hk
  have hhead : ((wd == k) && (some s == o : Bool)) = false := by
    have hwk : (wd == k) = false := by
      cases h2 : wd == k
      · rfl
      · have h4 : wd = k := by simpa using h2
        exact absurd h4.symm hkn
    rw [hwk]
    rfl
  rw [if_neg (by simp [hhead])]
  congr 1
  apply filter_bne_keep
  intro x hx
  have hx1 : (x.1 == k) = true := (Bool.and_eq_true _ _ |>.mp hx).1
  have hx2 : x.1 = k := by simpa using hx1
  cases h3 : x.1 == wd
  · rfl
  · have h4 : x.1 = wd := by simpa using h3
    exact absurd (hx2.symm.trans h4) hkn

/-- Helper: the invariant of the recursive-construction fold — every
registration made so far whose path is valid UTF-8 is covered by exactly
one registry entry, provided the Event Source never returns one handle for
two distinct paths. -/
theorem buildRecursive_inv (addW : RStr → Option Nat)
    (hinj : ∀ p q h, addW p = some h → addW q = some h → p = q) :
    ∀ (walk : List (Option RStr)) (acc : Registry) (regs : List Registration)
      (accOut : Registry) (regsOut : List Registration),
      buildRecursive addW walk acc regs = some (accOut, regsOut) →
      (∀ r ∈ regs, addW r.path = some r.wd) →
      (∀ r ∈ regs, ∀ s, r.path.toStr = some s → regCovered acc r) →
      (∀ r ∈ regsOut, addW r.path = some r.wd ∧
        ∀ s, r.path.toStr = some s → regCovered accOut r) := by
  intro walk
  induction walk with
  | nil =>
    intro acc regs accOut regsOut h h1 h2 r hr
    simp [buildRecursive] at h
    obtain ⟨ha, hb⟩ := h
    subst ha
    subst hb
    exact ⟨h1 r hr, fun s hs => h2 r hr s hs⟩
  | cons hd rest ih =>
    intro acc regs accOut regsOut h h1 h2
    match hd with
    | none => simp [buildRecursive] at h
    | some p =>
      rw [buildRecursive] at h
      cases haw : addW p with
      | none => rw [haw] at h; simp at h
      | some wd =>
        rw [haw] at h
        simp only at h
        cases hts : p.toStr with
        | none =>
          rw [hts] at h
          simp only at h
          refine ih acc (regs ++ [{ wd := wd, path := p, mask := dirWatchMask }])
            accOut regsOut h ?_ ?_
          · intro r hr
            rcases List.mem_append.mp hr with hr1 | hr2
            · exact h1 r hr1
            · simp at hr2
              subst hr2
              exact haw
          · intro r hr s hs
            rcases List.mem_append.mp hr with hr1 | hr2
            · exact h2 r hr1 s hs
            · simp at hr2
              subst hr2
              rw [hts] at hs
              exact absurd hs (by simp)
        | some s =>
          rw [hts] at h
          simp only at h
          refine ih (registryInsert acc wd s)
            (regs ++ [{ wd := wd, path := p, mask := dirWatchMask }])
            accOut regsOut h ?_ ?_
          · intro r hr
            rcases List.mem_append.mp hr with hr1 | hr2
            · exact h1 r hr1
            · simp at hr2
              subst hr2
              exact haw
          · intro r hr t ht
            rcases List.mem_append.mp hr with hr1 | hr2
            · -- an older registration stays covered after the insert
              by_cases hkey : r.wd = wd
              · have hpath : r.path = p := by
                  apply hinj r.path p wd
                  · rw [← hkey]
                    exact h1 r hr1
                  · exact haw
                have hts2 : r.path.toStr = some s := by rw [hpath, hts]
                have hst : t = s := by
                  rw [hts2] at ht
                  exact (Option.some.inj ht).symm
                unfold regCovered
                rw [hts2, hkey]
                exact cov_insert_self acc wd s
              · have hcov := h2 r hr1 t ht
                unfold regCovered at hcov ⊢
                rw [cov_insert_other acc wd r.wd s r.path.toStr
                  (by
                    cases h3 : r.wd == wd
                    · rfl
                    · exact absurd (by simpa using h3) hkey)]
                exact hcov
            · simp at hr2
              subst hr2
              have hst : s = t := by
                rw [hts] at ht
                exact Option.some.inj ht
              subst hst
              unfold regCovered
              simp only
              rw [hts]
              exact cov_insert_self acc wd s

end Watchers

namespace Watchers

/-- C2 amended: after a successful Recursive construction, every watch
registered during traversal **whose directory path is valid UTF-8** has
exactly one registry entry carrying its handle and its path (assuming the
Event Source never yields the same handle for two distinct paths, as the
data model requires); watches on non-UTF-8 paths get no entry. -/
theorem recursive_registry_covers (walk : List (Option RStr)) (root : String)
    (addW : RStr → Option Nat) (w : Watcher) (regs : List Registration) (ps : Registry)
    (hinj : ∀ p q h, addW p = some h → addW q = some h → p = q)
    (h : dir_watcher walk root .RECURSIVE addW = some (w, regs))
    (hps : w.paths = some ps) :
    ∀ r ∈ regs, ∀ s, r.path.toStr = some s → regCovered ps r := by
  rw [dir_watcher] at h
  cases hb : buildRecursive addW walk [] [] with
  | none => rw [hb] at h; simp at h
  | some pr =>
    obtain ⟨accOut, regsOut⟩ := pr
    rw [hb] at h
    simp at h
    obtain ⟨hw, hr⟩ := h
    subst hw
    subst hr
    simp at hps
    subst hps
    have hinv := buildRecursive_inv addW hinj walk [] [] accOut regsOut hb
      (by intro r hr; simp at hr) (by intro r hr; simp at hr)
    intro r hrm s hs
    exact (hinv r hrm).2 s hs

/-- C2 amended witness: a concrete two-directory recursive construction
(root "r" and child "r/a", handles 1 and 2) covers the root registration
with exactly one registry entry. -/
theorem recursive_registry_covers_witness :
    regCovered [(2, "r/a"), (1, "r")]
      { wd := 1, path := RStr.utf8 "r", mask := dirWatchMask } := by
  have hinj : ∀ p q h,
      (fun x => if x = RStr.utf8 "r" then some 1
        else if x = RStr.utf8 "r/a" then some 2 else (none : Option Nat)) p = some h →
      (fun x => if x = RStr.utf8 "r" then some 1
        else if x = RStr.utf8 "r/a" then some 2 else (none : Option Nat)) q = some h →
      p = q := by
    intro p q h hp hq
    by_cases h1 : p = RStr.utf8 "r" <;> by_cases h2 : p = RStr.utf8 "r/a" <;>
      by_cases h3 : q = RStr.utf8 "r" <;> by_cases h4 : q = RStr.utf8 "r/a" <;>
      simp [h1, h2, h3, h4] at hp hq
    all_goals first
      | omega
      | simp_all
  exact recursive_registry_covers
    [some (RStr.utf8 "r"), some (RStr.utf8 "r/a")] "r"
    (fun x => if x = RStr.utf8 "r" then some 1
      else if x = RStr.utf8 "r/a" then some 2 else (none : Option Nat))
    { watcher_type := .DIRECTORY, watch_mask := dirWatchMask, logger := false,
      paths := some [(2, "r/a"), (1, "r")] }
    [{ wd := 1, path := RStr.utf8 "r", mask := dirWatchMask },
     { wd := 2, path := RStr.utf8 "r/a", mask := dirWatchMask }]
    [(2, "r/a"), (1, "r")]
    hinj (by decide) rfl
    { wd := 1, path := RStr.utf8 "r", mask := dirWatchMask } (by simp) "r" rfl

end Watchers
